import Mathlib

/-!
Verification development for the dockerpage repository.

Shallow embedding notes:
* Python dicts whose key sets are fixed become Lean structures; dicts with
  dynamic keys become association lists preserving insertion order.
* Python exceptions that the source catches locally are modelled by the
  branch the handler takes; fallible primitives return `Except`.
* Stats arithmetic: the source computes in IEEE-754 doubles and applies
  `round(x, 2)` for display.  The model uses exact rationals and omits the
  display rounding; the claims under study concern sign, zero and the
  algebraic formula, which the rounding preserves.
-/

namespace DockerPage

/-! ### Small string helpers (Python semantics) -/

/-- Python substring containment `pat in s`, on character lists. -/
def charsContain (pat : List Char) : List Char → Bool
  | [] => pat.isEmpty
  | c :: rest => List.isPrefixOf pat (c :: rest) || charsContain pat rest

/-- Python `pat in s` for strings (substring test). -/
def strContains (s pat : String) : Bool :=
  charsContain pat.toList s.toList

/-- Python `s.lower()`, characterwise (the inputs here - image names and
health statuses - are ASCII, where this agrees with Python). -/
def lowerStr (s : String) : String :=
  String.mk (s.toList.map Char.toLower)

/-! ### JSON model, for `docker_hosts.load_docker_hosts` -/

/-- A JSON value as produced by Python `json.load`. -/
inductive J where
  | null : J
  | bool : Bool → J
  | num : Int → J
  | str : String → J
  | arr : List J → J
  | obj : List (String × J) → J

mutual

/-- Structural equality on JSON values (Python `==` on decoded JSON; the
`True == 1` cross-type equality is irrelevant here and ignored). -/
def jBeq : J → J → Bool
  | J.null, J.null => true
  | J.bool a, J.bool b => a == b
  | J.num a, J.num b => a == b
  | J.str a, J.str b => a == b
  | J.arr a, J.arr b => jBeqArr a b
  | J.obj a, J.obj b => jBeqObj a b
  | _, _ => false

/-- Elementwise equality of JSON arrays. -/
def jBeqArr : List J → List J → Bool
  | [], [] => true
  | x :: xs, y :: ys => jBeq x y && jBeqArr xs ys
  | _, _ => false

/-- Entrywise equality of JSON objects. -/
def jBeqObj : List (String × J) → List (String × J) → Bool
  | [], [] => true
  | (k1, v1) :: xs, (k2, v2) :: ys => k1 == k2 && jBeq v1 v2 && jBeqObj xs ys
  | _, _ => false

end

instance : BEq J := ⟨jBeq⟩

/-- Key lookup on a JSON object; `none` on non-objects or absent keys. -/
def jLookup (j : J) (k : String) : Option J :=
  match j with
  | .obj fs => (fs.find? (·.1 == k)).map (·.2)
  | _ => none

/-- Python `k in j`: key test for dicts, element equality for lists,
substring test for strings, `TypeError` for non-iterables. -/
def pyIn (j : J) (k : String) : Except String Bool :=
  match j with
  | .obj fs => .ok (fs.any (·.1 == k))
  | .arr xs => .ok (xs.any (· == J.str k))
  | .str s => .ok (strContains s k)
  | _ => .error "TypeError: argument is not iterable"

/-- Replace the value at `k`, or append `(k, v)` when absent
(Python dict assignment keeps insertion order). -/
def setKey (fs : List (String × J)) (k : String) (v : J) : List (String × J) :=
  if fs.any (·.1 == k) then
    fs.map (fun p => if p.1 == k then (k, v) else p)
  else fs ++ [(k, v)]

/-- Python `j[k] = v`: succeeds on dicts, `TypeError` otherwise. -/
def pySetItem (j : J) (k : String) (v : J) : Except String J :=
  match j with
  | .obj fs => .ok (.obj (setKey fs k v))
  | _ => .error "TypeError: object does not support item assignment"

/-- The `'hosts'` entry of the default configuration in
`docker_hosts.load_docker_hosts`. -/
def default_hosts_j : J :=
  .obj [("local", .obj
    [ ("name", .str "Local Docker")
    , ("host", .str "unix:///var/run/docker.sock")
    , ("tls_verify", .bool false)
    , ("cert_path", .str "")
    , ("description", .str "Local Docker daemon")
    , ("default", .bool true) ])]

/-- The default configuration built in `docker_hosts.load_docker_hosts`. -/
def default_config_j : J :=
  .obj [("hosts", default_hosts_j), ("current_host", .str "local")]

/-- The observable states of the `docker_hosts.json` file as seen by
`load_docker_hosts`: absent, unreadable (open/read raises), undecodable
(`json.load` raises), or decoded to a JSON value. -/
inductive FileState where
  | missing : FileState
  | unreadable : FileState
  | malformed : FileState
  | parsed : J → FileState

/-- `docker_hosts.load_docker_hosts`.  A missing file writes and returns the
default (the write is a side effect not modelled here); any exception inside
the `try` block - unreadable file, undecodable JSON, or a `TypeError` from
the membership/assignment probes - is caught and yields the default; a
decoded value has the `hosts` / `current_host` keys filled in when the
membership probes report them absent, and is then returned as-is. -/
def load_docker_hosts : FileState → J
  | .missing => default_config_j
  | .unreadable => default_config_j
  | .malformed => default_config_j
  | .parsed j =>
    match pyIn j "hosts" with
    | .error _ => default_config_j
    | .ok b1 =>
      match (if b1 then .ok j else pySetItem j "hosts" default_hosts_j : Except String J) with
      | .error _ => default_config_j
      | .ok j1 =>
        match pyIn j1 "current_host" with
        | .error _ => default_config_j
        | .ok b2 =>
          match (if b2 then .ok j1 else pySetItem j1 "current_host" (.str "local") :
              Except String J) with
          | .error _ => default_config_j
          | .ok j2 => j2

/-! ### Host registry CRUD (`docker_hosts.delete_host` / `switch_host`) -/

/-- A host profile entry as stored under `hosts_config['hosts']`. -/
structure HostEntry where
  name : String
  host : String
  tls_verify : Bool
  cert_path : String
  description : String
  isDefault : Bool
deriving DecidableEq

/-- The hosts configuration as a structured value: the `hosts` dict (an
insertion-ordered association list with unique keys) and `current_host`. -/
structure HostsConfig where
  hosts : List (String × HostEntry)
  current_host : String
deriving DecidableEq

/-- Python `host_id in hosts_config['hosts']`. -/
def hostsHas (cfg : HostsConfig) (hid : String) : Bool :=
  cfg.hosts.any (·.1 == hid)

/-- `docker_hosts.delete_host`: returns the `(success, message)` pair and the
configuration that is (re)saved.  Rejections return before any save, so the
configuration is returned unchanged there.  Note: the source wraps the host
name in single quotes inside the success message; the quotes are elided
here. -/
def delete_host (hid : String) (cfg : HostsConfig) : (Bool × String) × HostsConfig :=
  if ¬ hostsHas cfg hid then ((false, "Host not found"), cfg)
  else if hid = "local" then ((false, "Cannot delete the local Docker host"), cfg)
  else
    let host_name := (((cfg.hosts.find? (·.1 == hid)).map (fun p => p.2.name)).getD hid)
    let hosts' := cfg.hosts.filter (fun p => !(p.1 == hid))
    let current' := if cfg.current_host = hid then "local" else cfg.current_host
    ((true, "Docker host " ++ host_name ++ " deleted successfully"),
     { hosts := hosts', current_host := current' })

/-- `docker_hosts.switch_host`: rejects an unknown id before any save;
otherwise records the new current host and saves. -/
def switch_host (hid : String) (cfg : HostsConfig) : (Bool × String) × HostsConfig :=
  if ¬ hostsHas cfg hid then ((false, "Host not found"), cfg)
  else
    let host_name := (((cfg.hosts.find? (·.1 == hid)).map (fun p => p.2.name)).getD hid)
    ((true, "Switched to Docker host " ++ host_name),
     { hosts := cfg.hosts, current_host := hid })

/-! ### URL derivation (`utils.get_host_url_for_containers`) -/

/-- The current host profile as passed to the formatters (the subset of the
profile dict the URL derivation reads). -/
structure HostProfile where
  name : String
  host : String
deriving DecidableEq

/-- `utils.get_host_url_for_containers`.  `hostUrlEnv` models
`os.getenv('HOST_URL')` (`none` = unset, defaulted to `"localhost"`).
`current_host` is `none` for a missing/empty profile dict (Python falsiness).
`host_url.split('://', 1)[1]` after a `startswith` check is exactly dropping
the scheme prefix, which is how it is written here. -/
def get_host_url_for_containers (current_host : Option HostProfile)
    (hostUrlEnv : Option String) : String :=
  let fallback :=
    let host_url := hostUrlEnv.getD "localhost"
    if host_url.startsWith "http://" then host_url.drop 7
    else if host_url.startsWith "https://" then host_url.drop 8
    else host_url
  match current_host with
  | some h =>
    if h.host.startsWith "tcp://" then
      -- tcp_host.split('://')[1].split(':')[0]; the startswith guard makes
      -- the index-1 access total, and the IndexError handler unreachable
      match (h.host.splitOn "://").get? 1 with
      | some rest => (rest.splitOn ":").headD ""
      | none => fallback
    else fallback
  | none => fallback

/-! ### Stats sampler arithmetic -/

/-- One decoded stats payload with every key the computations read present.
Missing keys (e.g. no `percpu_usage` on cgroup v2) raise `KeyError` inside
the worker and are modelled by `StatsOutcome.failure`. -/
structure StatsSample where
  cpu_total_usage : Int
  precpu_total_usage : Int
  system_cpu_usage : Int
  presystem_cpu_usage : Int
  percpu_len : Nat
  memory_usage : Int
  memory_limit : Int
deriving DecidableEq

/-- Outcome of one sampling attempt: a decoded payload, a raised exception
inside the worker (stats call failed or a key was missing), or no result
within the join deadline (`queue.Empty`). -/
inductive StatsOutcome where
  | ok : StatsSample → StatsOutcome
  | failure : String → StatsOutcome
  | timeout : StatsOutcome
deriving DecidableEq

/-- The shared CPU-percent computation
(`container_formatter.py` lines 182-188, `api_routes.py` lines 202-207):
`(cpu_delta / system_delta) * len(percpu_usage) * 100` when
`system_delta > 0`, else `0.0`.  No clamping is applied. -/
def cpu_percent_of (s : StatsSample) : ℚ :=
  let cpu_delta : Int := s.cpu_total_usage - s.precpu_total_usage
  let system_delta : Int := s.system_cpu_usage - s.presystem_cpu_usage
  if 0 < system_delta then
    ((cpu_delta : ℚ) / (system_delta : ℚ)) * (s.percpu_len : ℚ) * 100
  else 0

/-- The four stats fields a formatted container carries. -/
structure StatsFields where
  cpu_percent : ℚ
  memory_usage : Int
  memory_limit : Int
  memory_percent : ℚ
deriving DecidableEq

/-- The zeroed stats group written by every non-sampled branch of
`format_container_info`. -/
def zeroStats : StatsFields :=
  { cpu_percent := 0, memory_usage := 0, memory_limit := 0, memory_percent := 0 }

/-- The stats section of `container_formatter.format_container_info`
(lines 178-213).  The memory division there is unguarded: a zero
`memory_limit` raises `ZeroDivisionError`, which the `except` at line 208
turns into the fully zeroed group (overwriting the already-assigned CPU
fields).  A `None` payload from the worker and a join timeout also zero the
group - in both cases without recording any error. -/
def formatterStats (o : StatsOutcome) : StatsFields :=
  match o with
  | .ok s =>
    if s.memory_limit = 0 then zeroStats
    else
      { cpu_percent := cpu_percent_of s
        memory_usage := s.memory_usage
        memory_limit := s.memory_limit
        memory_percent := (s.memory_usage : ℚ) / (s.memory_limit : ℚ) * 100 }
  | .failure _ => zeroStats
  | .timeout => zeroStats

/-! ### Container formatter (`container_formatter.py`) -/

/-- Labels dict: insertion-ordered association list. -/
abbrev Labels := List (String × String)

/-- Python `labels.get(k)`. -/
def lookupLabel (ls : Labels) (k : String) : Option String :=
  (ls.find? (·.1 == k)).map (·.2)

/-- Keep a label value only when Python considers it truthy (non-empty). -/
def truthyLabel : Option String → Option String
  | some v => if v = "" then none else some v
  | none => none

/-- `labels.get('PORT') or labels.get('port')`, followed by the truthiness
check the callers apply (`if port_label:`). -/
def getPortLabel (ls : Labels) : Option String :=
  match truthyLabel (lookupLabel ls "PORT") with
  | some v => some v
  | none => truthyLabel (lookupLabel ls "port")

/-- A raw container record, restricted to the attributes the formatters
read.  `ports` models `attrs['NetworkSettings']['Ports']` as the
insertion-ordered list of (container port, list of `HostPort` values); a
`None` or empty host-info list are both falsy in the source and are both
modelled by `[]`.  `labels` is `attrs['Config']['Labels']` (`none` = JSON
null).  `health` is `attrs['State']['Health']['Status']` when the `Health`
dict is present (a present dict with a missing `Status` is `some ""`).
Independent passthrough fields the claims never touch (network mode,
command, env vars, restart policy, raw state) are elided. -/
structure RawContainer where
  cid : String
  name : String
  status : String
  imageTags : List String
  imageId : String
  created : String
  ports : List (String × List String)
  labels : Option Labels
  health : Option String
deriving DecidableEq

/-- `container.image.tags[0] if container.image.tags else container.image.id[:12]`. -/
def imageDisplay (c : RawContainer) : String :=
  match c.imageTags with
  | t :: _ => t
  | [] => c.imageId.take 12

/-- The port-mapping loop of both formatters: builds the display strings in
iteration order and captures the first mapped `HostPort`. -/
def buildPorts (ports : List (String × List String)) : List String × Option String :=
  ports.foldl
    (fun acc p =>
      match p with
      | (container_port, host_info) =>
        if host_info.isEmpty then (acc.1 ++ [container_port], acc.2)
        else
          (acc.1 ++ host_info.map (fun host_port => host_port ++ ":" ++ container_port),
           match acc.2 with
           | some hp => some hp
           | none => host_info.head?))
    ([], none)

/-- The icon label keys probed by `format_container_info`, in priority order. -/
def icon_labels_full : List String :=
  ["icon", "icon.url", "app.icon", "org.opencontainers.image.icon",
   "net.unraid.docker.icon", "io.portainer.icon"]

/-- The icon label keys probed by `format_container_info_lightweight`. -/
def icon_labels_lightweight : List String :=
  ["icon", "icon.url", "app.icon", "org.opencontainers.image.icon"]

/-- The icon-label loop: first key present with a truthy value wins
(`if label_key in labels and labels[label_key]: ... break`). -/
def firstNonEmptyLabel (keys : List String) (ls : Labels) : Option String :=
  match keys with
  | [] => none
  | k :: rest =>
    match truthyLabel (lookupLabel ls k) with
    | some v => some v
    | none => firstNonEmptyLabel rest ls

/-- The generic runtime icon both formatters default to. -/
def defaultIcon : String := "https://cdn.jsdelivr.net/gh/selfhst/icons/png/docker.png"

/-- The image-name keyword table of `format_container_info` (lines 127-144),
applied to the lower-cased display image name. -/
def keywordIcon (image : String) : String :=
  let image_name := lowerStr image
  if strContains image_name "nginx" then
    "https://cdn.jsdelivr.net/gh/selfhst/icons/png/nginx.png"
  else if strContains image_name "postgres" then
    "https://cdn.jsdelivr.net/gh/selfhst/icons/png/postgresql.png"
  else if strContains image_name "mysql" || strContains image_name "mariadb" then
    "https://cdn.jsdelivr.net/gh/selfhst/icons/png/mysql.png"
  else if strContains image_name "redis" then
    "https://cdn.jsdelivr.net/gh/selfhst/icons/png/redis.png"
  else if strContains image_name "mongo" then
    "https://cdn.jsdelivr.net/gh/selfhst/icons/png/mongodb.png"
  else if strContains image_name "node" then
    "https://cdn.jsdelivr.net/gh/selfhst/icons/png/nodejs.png"
  else if strContains image_name "python" then
    "https://cdn.jsdelivr.net/gh/selfhst/icons/png/python.png"
  else defaultIcon

/-- The formatted container record (the keys of the `container_info` dict
that the claims touch).  `error` models the presence of an `error` key: the
success path of the formatter never writes one (only the total-failure
fallback record does, which is unreachable for the well-formed records this
model ranges over). -/
structure ContainerView where
  cid : String
  name : String
  status : String
  image : String
  created : String
  ports : List String
  first_port_url : Option String
  icon_url : String
  health : Option String
  cpu_percent : ℚ
  memory_usage : Int
  memory_limit : Int
  memory_percent : ℚ
  error : Option String
deriving DecidableEq

/-- `container_formatter.format_container_info`.  Environment reads are
passed in: `hostUrlEnv` = `HOST_URL`, `enableStats` =
`ENABLE_STATS == 'true'`, `skipInitialStats` =
`SKIP_INITIAL_STATS ('true' default) == 'true'`; `outcome` is the sampling
oracle consulted when the stats branch actually samples. -/
def format_container_info (c : RawContainer) (current_host : Option HostProfile)
    (hostUrlEnv : Option String) (enableStats skipInitialStats : Bool)
    (outcome : StatsOutcome) : ContainerView :=
  let labels := c.labels.getD []
  let pm := buildPorts c.ports
  let port_mappings :=
    if pm.1.isEmpty then
      match getPortLabel labels with
      | some port_label => [port_label ++ " (host)"]
      | none => []
    else pm.1
  let first_port_url :=
    if c.status = "running" then
      match pm.2 with
      | some first_host_port =>
        some ("http://" ++ get_host_url_for_containers current_host hostUrlEnv
              ++ ":" ++ first_host_port)
      | none =>
        match getPortLabel labels with
        | some port_label =>
          some ("http://" ++ get_host_url_for_containers current_host hostUrlEnv
                ++ ":" ++ port_label)
        | none => none
    else none
  let icon_url :=
    match firstNonEmptyLabel icon_labels_full labels with
    | some u => u
    | none => keywordIcon (imageDisplay c)
  let stats :=
    if c.status = "running" then
      if enableStats then
        if skipInitialStats then zeroStats
        else formatterStats outcome
      else zeroStats
    else zeroStats
  { cid := c.cid.take 12
    name := c.name
    status := c.status
    image := imageDisplay c
    created := c.created
    ports := port_mappings
    first_port_url := first_port_url
    icon_url := icon_url
    health := c.health.map lowerStr
    cpu_percent := stats.cpu_percent
    memory_usage := stats.memory_usage
    memory_limit := stats.memory_limit
    memory_percent := stats.memory_percent
    error := none }

/-- `container_formatter.format_container_info_lightweight`: same port/URL
logic, only the four-key icon list with no keyword table, and stats always
zeroed. -/
def format_container_info_lightweight (c : RawContainer)
    (current_host : Option HostProfile) (hostUrlEnv : Option String) : ContainerView :=
  let labels := c.labels.getD []
  let pm := buildPorts c.ports
  let port_mappings :=
    if pm.1.isEmpty then
      match getPortLabel labels with
      | some port_label => [port_label ++ " (host)"]
      | none => []
    else pm.1
  let first_port_url :=
    if c.status = "running" then
      match pm.2 with
      | some first_host_port =>
        some ("http://" ++ get_host_url_for_containers current_host hostUrlEnv
              ++ ":" ++ first_host_port)
      | none =>
        match getPortLabel labels with
        | some port_label =>
          some ("http://" ++ get_host_url_for_containers current_host hostUrlEnv
                ++ ":" ++ port_label)
        | none => none
    else none
  let icon_url :=
    match firstNonEmptyLabel icon_labels_lightweight labels with
    | some u => u
    | none => defaultIcon
  { cid := c.cid.take 12
    name := c.name
    status := c.status
    image := imageDisplay c
    created := c.created
    ports := port_mappings
    first_port_url := first_port_url
    icon_url := icon_url
    health := c.health.map lowerStr
    cpu_percent := 0
    memory_usage := 0
    memory_limit := 0
    memory_percent := 0
    error := none }

/-! ### Dashboard grouping (`app_new.index`, lines 64-90) -/

/-- The keys of the `containers_by_status` dict. -/
def bucket_keys : List String := ["running", "exited", "created", "paused", "other"]

/-- Which bucket a formatted status lands in:
`status if status in containers_by_status else 'other'`. -/
def bucket_of (status : String) : String :=
  if status ∈ bucket_keys then status else "other"

/-! ### Bulk stats endpoint (`api_routes.api_container_stats`) -/

/-- The identity fields of a container as read by the stats endpoint. -/
structure ContainerMeta where
  cid : String
  name : String
deriving DecidableEq

/-- One entry of the bulk-stats response. -/
structure StatsEntry where
  cid : String
  name : String
  cpu_percent : ℚ
  memory_usage : Int
  memory_limit : Int
  memory_percent : ℚ
  error : Option String
deriving DecidableEq

/-- The per-container body of `api_container_stats` (worker thread plus the
join loop, lines 197-263): a decoded payload yields the computed entry (the
memory division here is guarded by `if memory_limit > 0`); an exception in
the worker yields the zeroed entry with `error` = the exception text; a
join timeout yields the zeroed entry with `error` = `"Timeout"`. -/
def api_stats_entry (c : ContainerMeta) (o : StatsOutcome) : StatsEntry :=
  match o with
  | .ok s =>
    { cid := c.cid.take 12
      name := c.name
      cpu_percent := cpu_percent_of s
      memory_usage := s.memory_usage
      memory_limit := s.memory_limit
      memory_percent :=
        if 0 < s.memory_limit then (s.memory_usage : ℚ) / (s.memory_limit : ℚ) * 100
        else 0
      error := none }
  | .failure msg =>
    { cid := c.cid.take 12, name := c.name, cpu_percent := 0, memory_usage := 0
      memory_limit := 0, memory_percent := 0, error := some msg }
  | .timeout =>
    { cid := c.cid.take 12, name := c.name, cpu_percent := 0, memory_usage := 0
      memory_limit := 0, memory_percent := 0, error := some "Timeout" }

/-- `api_container_stats` as (HTTP status, entries): a failure listing the
running containers is the only path to a 500; per-container failures and
timeouts stay inside the 200 payload. -/
def api_container_stats
    (listing : Except String (List (ContainerMeta × StatsOutcome))) :
    Nat × List StatsEntry :=
  match listing with
  | .error _ => (500, [])
  | .ok cs => (200, cs.map (fun p => api_stats_entry p.1 p.2))

/-! ### Runtime connector (`docker_client.py` and the legacy `app.py`) -/

/-- An opaque runtime handle (a `docker.DockerClient` that survived its
round-trip test). -/
structure Handle where
  hid : Nat
deriving DecidableEq

/-- Outcomes of the fresh connection strategies, in the order they are
tried.  `Except.ok h` means the transport came up and the version/identity
round-trip (`client.version()`, plus `client.info()` in `docker_client.py`)
succeeded, yielding handle `h`; `Except.error msg` means the attempt raised. -/
abbrev Attempts := List (Except String Handle)

/-- The strategy loop of `app.get_docker_client` (lines 59-78): first
successful attempt wins; when every method fails the function returns
`None` - the error messages are only logged, never returned. -/
def tryMethods : Attempts → Option Handle
  | [] => none
  | .ok h :: _ => some h
  | .error _ :: rest => tryMethods rest

/-- `app.get_docker_client`: `cached` is the global `docker_client`;
`ping` is whether `docker_client.ping()` on the cached client would succeed.
Returns (result, new value of the global).  The cached client is reused only
after a successful ping; on ping failure it is dropped and the strategy
sequence reruns. -/
def app_get_docker_client (cached : Option Handle) (ping : Bool)
    (attempts : Attempts) : Option Handle × Option Handle :=
  match cached with
  | some c =>
    if ping then (some c, some c)
    else
      match tryMethods attempts with
      | some h => (some h, some h)
      | none => (none, none)
  | none =>
    match tryMethods attempts with
    | some h => (some h, some h)
    | none => (none, none)

/-- The connector cache of `docker_client.py`: the global `docker_client`
and the `_cached_host_id` attribute. -/
structure DCState where
  docker_client : Option Handle
  cached_host_id : Option String
deriving DecidableEq

/-- `docker_client.get_docker_client` (after `host_id` resolution):
`hosts` is `hosts_config['hosts']`; `attempt` is the outcome of the single
strategy this variant runs (TLS-configured or direct `DockerClient`
construction followed by `version()` and `info()`).  The `ping` parameter
records whether a liveness probe on the cached client would succeed - the
source never consults it: a cached client for the same host id is returned
as-is (lines 30-33), which is what the underscore-less binder being unused
makes visible.  An unknown host id returns `None` leaving the cache
untouched; a failed attempt returns `None` with the cache cleared. -/
def dc_get_docker_client (st : DCState) (host_id : String)
    (hosts : List (String × HostEntry)) (ping : Bool)
    (attempt : Except String Handle) : Option Handle × DCState :=
  let fresh : Option Handle × DCState :=
    match hosts.find? (·.1 == host_id) with
    | none => (none, st)
    | some _ =>
      match attempt with
      | .ok h => (some h, { docker_client := some h, cached_host_id := some host_id })
      | .error _ => (none, { docker_client := none, cached_host_id := st.cached_host_id })
  match st.docker_client with
  | some c =>
    if st.cached_host_id = some host_id then
      -- cached reuse: no ping, `ping` deliberately ignored
      let _ := ping
      (some c, st)
    else fresh
  | none => fresh

/-- What `docker_client.test_docker_connection` observes: the worker
connected and answered `version()`/`info()`, the worker raised `msg`, or no
result arrived within the 10s join (`queue.Empty`). -/
inductive TestOutcome where
  | connected : TestOutcome
  | failed : String → TestOutcome
  | hang : TestOutcome
deriving DecidableEq

/-- The fields of the `test_docker_connection` result dict the claims read.
On success the dict carries version/system metadata plus `host_url` and no
`error`; on a worker exception it carries `error` = the exception text and
`host_url` = the address attempted; on a join timeout it carries the fixed
timeout message and no top-level `host_url` (the address sits inside the
`details` sub-dict). -/
structure TestConnResult where
  success : Bool
  error : Option String
  host_url : Option String
deriving DecidableEq

/-- `docker_client.test_docker_connection`. -/
def test_docker_connection (cfg : HostEntry) (o : TestOutcome) : TestConnResult :=
  match o with
  | .connected => { success := true, error := none, host_url := some cfg.host }
  | .failed msg => { success := false, error := some msg, host_url := some cfg.host }
  | .hang => { success := false, error := some "Connection test timed out", host_url := none }

/-! ### Concrete fixtures used by the closed theorems below -/

/-- Whether every connection strategy outcome is a failure. -/
def allErrors (as : Attempts) : Bool :=
  as.all (fun a => match a with | .ok _ => false | .error _ => true)

/-- The default local profile entry, structured. -/
def localEntry : HostEntry :=
  { name := "Local Docker", host := "unix:///var/run/docker.sock"
    tls_verify := false, cert_path := "", description := "Local Docker daemon"
    isDefault := true }

/-- A remote TCP profile entry. -/
def remoteEntry : HostEntry :=
  { name := "Remote", host := "tcp://10.0.0.5:2375"
    tls_verify := false, cert_path := "", description := "", isDefault := false }

/-- A two-profile hosts dict. -/
def twoHosts : List (String × HostEntry) := [("local", localEntry), ("h2", remoteEntry)]

/-- A registry whose currently-active profile is the non-local `h2`. -/
def cfg8 : HostsConfig := { hosts := twoHosts, current_host := "h2" }

/-- A previously cached handle. -/
def h7 : Handle := ⟨7⟩

/-- Four failing strategy outcomes (one per method in `app.get_docker_client`). -/
def allFailAttempts : Attempts :=
  [.error "e1", .error "e2", .error "e3", .error "e4"]

/-- A container whose raw status is outside the four named buckets. -/
def restartingContainer : RawContainer :=
  { cid := "aaaabbbbccccdddd", name := "w", status := "restarting"
    imageTags := ["img:1"], imageId := "sha256a", created := "2024-01-01"
    ports := [], labels := none, health := none }

/-- A container with raw status `dead`. -/
def deadContainer : RawContainer :=
  { cid := "1111222233334444", name := "d", status := "dead"
    imageTags := ["img:2"], imageId := "sha256b", created := "2024-01-02"
    ports := [], labels := none, health := none }

/-- A plain running container. -/
def runningContainer : RawContainer :=
  { cid := "ffffeeeeddddcccc", name := "r", status := "running"
    imageTags := ["app:1"], imageId := "sha256c", created := "2024-01-03"
    ports := [], labels := some [], health := none }

/-- An exited container that nevertheless has a port mapping and PORT/port
labels. -/
def exitedPortedContainer : RawContainer :=
  { cid := "9999888877776666", name := "e", status := "exited"
    imageTags := ["app:2"], imageId := "sha256d", created := "2024-01-04"
    ports := [("80/tcp", ["8080"])], labels := some [("PORT", "9000"), ("port", "9001")]
    health := none }

/-- An nginx-imaged container with no labels at all. -/
def nginxNoLabel : RawContainer :=
  { cid := "5555444433332222", name := "n", status := "running"
    imageTags := ["nginx:latest"], imageId := "sha256e", created := "2024-01-05"
    ports := [], labels := some [], health := none }

/-- An nginx-imaged container carrying an icon label (with an earlier key
present but empty, exercising the priority order). -/
def labeledNginx : RawContainer :=
  { cid := "1212343456567878", name := "ln", status := "running"
    imageTags := ["nginx:latest"], imageId := "sha256f", created := "2024-01-06"
    ports := [], labels := some [("icon.url", ""), ("app.icon", "http://x/i.png")]
    health := none }

/-- A stats payload whose CPU counter went backwards while the system
counter advanced. -/
def negSample : StatsSample :=
  { cpu_total_usage := 0, precpu_total_usage := 100
    system_cpu_usage := 200, presystem_cpu_usage := 100
    percpu_len := 1, memory_usage := 10, memory_limit := 100 }

/-- A well-behaved stats payload: `(100/100) * 2 * 100 = 200`. -/
def posSample : StatsSample :=
  { cpu_total_usage := 200, precpu_total_usage := 100
    system_cpu_usage := 300, presystem_cpu_usage := 200
    percpu_len := 2, memory_usage := 50, memory_limit := 100 }

/-! ### Helper lemmas -/

/-- When every strategy fails, the strategy loop yields nothing. -/
theorem tryMethods_eq_none_of_allErrors :
    ∀ as : Attempts, allErrors as = true → tryMethods as = none
  | [], _ => rfl
  | .ok h :: rest, hall => by simp [allErrors] at hall
  | .error m :: rest, hall => by
    have : allErrors rest = true := by simpa [allErrors] using hall
    simpa [tryMethods] using tryMethods_eq_none_of_allErrors rest this

/-- First-match semantics of the icon-label loop: if every key before `k`
fails the truthiness test and `k` passes with value `v`, the loop stops at
`k`. -/
theorem firstNonEmptyLabel_append (ls : Labels) (pre post : List String)
    (k v : String)
    (hpre : ∀ k2 ∈ pre, truthyLabel (lookupLabel ls k2) = none)
    (hk : truthyLabel (lookupLabel ls k) = some v) :
    firstNonEmptyLabel (pre ++ k :: post) ls = some v := by
  induction pre with
  | nil => simp [firstNonEmptyLabel, hk]
  | cons a t ih =>
    have ha : truthyLabel (lookupLabel ls a) = none := hpre a (by simp)
    simpa [firstNonEmptyLabel, ha] using ih (fun k2 hk2 => hpre k2 (by simp [hk2]))

/-- A key reported present by `any` has a value in the association list. -/
theorem exists_mem_of_any {α : Type} (l : List (String × α)) (k : String)
    (h : l.any (·.1 == k) = true) : ∃ v, (k, v) ∈ l := by
  rcases List.any_eq_true.mp h with ⟨x, hx, hxk⟩
  have hk : x.1 = k := by simpa using hxk
  exact ⟨x.2, by rw [← hk]; exact hx⟩

/-- `setKey` leaves a value at the assigned key. -/
theorem setKey_any_self (fs : List (String × J)) (k : String) (v : J) :
    (setKey fs k v).any (·.1 == k) = true := by
  unfold setKey
  by_cases h : fs.any (·.1 == k) = true
  · rw [if_pos h]
    rcases List.any_eq_true.mp h with ⟨x, hx, hxk⟩
    refine List.any_eq_true.mpr ⟨(k, v), List.mem_map.mpr ⟨x, hx, by simp [hxk]⟩, by simp⟩
  · rw [if_neg h]
    simp

/-- `setKey` never removes other keys. -/
theorem setKey_preserves_any (fs : List (String × J)) (k k2 : String) (v : J)
    (h : fs.any (·.1 == k2) = true) :
    (setKey fs k v).any (·.1 == k2) = true := by
  unfold setKey
  by_cases hm : fs.any (·.1 == k) = true
  · rw [if_pos hm]
    rcases List.any_eq_true.mp h with ⟨x, hx, hxk2⟩
    by_cases hxk : x.1 == k
    · have hkk2 : (k == k2) = true := by
        have h1 : x.1 = k := by simpa using hxk
        have h2 : x.1 = k2 := by simpa using hxk2
        simp [← h1, h2]
      refine List.any_eq_true.mpr ⟨(k, v), List.mem_map.mpr ⟨x, hx, by simp [hxk]⟩, by simpa using hkk2⟩
    · refine List.any_eq_true.mpr ⟨x, List.mem_map.mpr ⟨x, hx, by simp [hxk]⟩, hxk2⟩
  · rw [if_neg hm]
    simp [List.any_append, h]

/-- Removing a key removes it. -/
theorem filter_ne_any_self (l : List (String × HostEntry)) (k : String) :
    (l.filter (fun p => !(p.1 == k))).any (·.1 == k) = false := by
  induction l with
  | nil => rfl
  | cons a t ih =>
    by_cases ha : a.1 == k
    · simp [List.filter, ha, ih]
    · simp [List.filter, ha, ih]

/-! ### C1: status bucketing -/

/-- C1 counterexample: a container whose raw lifecycle status is
`restarting` (outside the four named buckets) is formatted with status
`restarting`, not `other` - the formatter passes the raw status through
verbatim, so the claim that the formatted `ContainerView` has status
`"other"` is false. -/
theorem C1_counterexample :
    (format_container_info restartingContainer none none false false .timeout).status
        = "restarting" ∧
    ("restarting" : String) ≠ "other" :=
  ⟨rfl, by decide⟩

/-- C1 amended: for a raw status outside `{running, exited, created,
paused}`, the formatter preserves the raw status string on the
`ContainerView`, and it is the dashboard grouping of `app_new.index` that
places such a container in the `other` bucket. -/
theorem C1_amended (c : RawContainer) (ch : Option HostProfile) (env : Option String)
    (es sis : Bool) (o : StatsOutcome)
    (h : c.status ∉ (["running", "exited", "created", "paused"] : List String)) :
    (format_container_info c ch env es sis o).status = c.status ∧
    bucket_of (format_container_info c ch env es sis o).status = "other" := by
  have hs : (format_container_info c ch env es sis o).status = c.status := rfl
  refine ⟨hs, ?_⟩
  rw [hs]
  have h4 : ¬(c.status = "running" ∨ c.status = "exited" ∨ c.status = "created" ∨
      c.status = "paused") := by simpa using h
  by_cases h5 : c.status = "other"
  · simp [bucket_of, bucket_keys, h5]
  · have hnot : c.status ∉ bucket_keys := by
      intro hmem
      have hd : c.status = "running" ∨ c.status = "exited" ∨ c.status = "created" ∨
          c.status = "paused" ∨ c.status = "other" := by
        simpa [bucket_keys] using hmem
      rcases hd with hh | hh | hh | hh | hh
      · exact h4 (Or.inl hh)
      · exact h4 (Or.inr (Or.inl hh))
      · exact h4 (Or.inr (Or.inr (Or.inl hh)))
      · exact h4 (Or.inr (Or.inr (Or.inr hh)))
      · exact h5 hh
    simp [bucket_of, hnot]

/-- C1 witness: the amended statement at the concrete `dead` container. -/
theorem C1_witness :
    (format_container_info deadContainer none none false false .timeout).status = "dead" ∧
    bucket_of (format_container_info deadContainer none none false false .timeout).status
        = "other" := by
  have h := C1_amended deadContainer none none false false .timeout (by decide)
  simpa [deadContainer] using h

/-! ### C2: CPU percent -/

/-- C2 counterexample: with `cpu_delta = -100` and `system_delta = 100` the
bulk-stats entry carries `cpu_percent = -100 < 0`; no clamping happens, so
"the result is always >= 0" and "negative inputs are treated as 0.0" are
false of the code. -/
theorem C2_counterexample :
    (api_stats_entry ⟨"c1", "n1"⟩ (.ok negSample)).cpu_percent < 0 := by
  have h : (api_stats_entry ⟨"c1", "n1"⟩ (.ok negSample)).cpu_percent = -100 := by
    simp [api_stats_entry, cpu_percent_of, negSample]
  rw [h]; norm_num

/-- C2 amended: `cpu_percent` is `(cpu_delta / system_delta) *
len(percpu_usage) * 100` when `system_delta > 0` - a value that is negative
whenever `cpu_delta < 0` - and exactly `0.0` when `system_delta <= 0`; a
failed stats call or a missing key is caught and yields a zeroed entry
without raising (the model is total by construction). -/
theorem C2_amended (m : ContainerMeta) (s : StatsSample) (msg : String) :
    (0 < s.system_cpu_usage - s.presystem_cpu_usage →
      (api_stats_entry m (.ok s)).cpu_percent =
        ((s.cpu_total_usage - s.precpu_total_usage : Int) : ℚ)
          / ((s.system_cpu_usage - s.presystem_cpu_usage : Int) : ℚ)
          * (s.percpu_len : ℚ) * 100) ∧
    (s.system_cpu_usage - s.presystem_cpu_usage ≤ 0 →
      (api_stats_entry m (.ok s)).cpu_percent = 0) ∧
    (api_stats_entry m (.failure msg)).cpu_percent = 0 ∧
    (api_stats_entry m .timeout).cpu_percent = 0 := by
  refine ⟨?_, ?_, rfl, rfl⟩
  · intro h
    simp [api_stats_entry, cpu_percent_of, h]
  · intro h
    have hn : ¬(0 < s.system_cpu_usage - s.presystem_cpu_usage) := not_lt.mpr h
    simp [api_stats_entry, cpu_percent_of, hn]

/-- C2 witness: the amended formula at a concrete payload,
`(100/100) * 2 * 100 = 200`. -/
theorem C2_witness :
    (api_stats_entry ⟨"c2", "n2"⟩ (.ok posSample)).cpu_percent = 200 := by
  have h := (C2_amended ⟨"c2", "n2"⟩ posSample "e").1 (by decide)
  rw [h]
  norm_num [posSample]

/-! ### C3: timeout / failure snapshots -/

/-- C3 counterexample: a sampling timeout inside `format_container_info`
(running container, stats enabled, initial skip off) zeroes the four numeric
fields but records no error at all - `error = none` - so the claim that the
error field is set to a machine-readable reason is false on that path. -/
theorem C3_counterexample :
    (format_container_info runningContainer none none true false .timeout).error = none ∧
    (format_container_info runningContainer none none true false .timeout).cpu_percent = 0 ∧
    (format_container_info runningContainer none none true false .timeout).memory_usage = 0 ∧
    (format_container_info runningContainer none none true false .timeout).memory_limit = 0 ∧
    (format_container_info runningContainer none none true false .timeout).memory_percent = 0 :=
  ⟨rfl, rfl, rfl, rfl, rfl⟩

/-- C3 amended: on timeout or failure the bulk-stats endpoint returns a
zeroed entry whose `error` is `"Timeout"` (capitalized) or the underlying
message, and the request still answers 200; the full formatter zeroes the
numeric fields on timeout or failure but sets no error field, and neither
path records an explicit `sampled` flag. -/
theorem C3_amended (m : ContainerMeta) (msg : String) (c : RawContainer)
    (ch : Option HostProfile) (env : Option String)
    (cs : List (ContainerMeta × StatsOutcome)) :
    (api_stats_entry m .timeout).error = some "Timeout" ∧
    (api_stats_entry m .timeout).cpu_percent = 0 ∧
    (api_stats_entry m .timeout).memory_usage = 0 ∧
    (api_stats_entry m .timeout).memory_limit = 0 ∧
    (api_stats_entry m .timeout).memory_percent = 0 ∧
    (api_stats_entry m (.failure msg)).error = some msg ∧
    (api_stats_entry m (.failure msg)).cpu_percent = 0 ∧
    (api_stats_entry m (.failure msg)).memory_usage = 0 ∧
    (api_stats_entry m (.failure msg)).memory_limit = 0 ∧
    (api_stats_entry m (.failure msg)).memory_percent = 0 ∧
    (api_container_stats (.ok cs)).1 = 200 ∧
    (format_container_info c ch env true false .timeout).error = none ∧
    (format_container_info c ch env true false .timeout).cpu_percent = 0 ∧
    (format_container_info c ch env true false .timeout).memory_percent = 0 ∧
    (format_container_info c ch env true false (.failure msg)).error = none ∧
    (format_container_info c ch env true false (.failure msg)).cpu_percent = 0 ∧
    (format_container_info c ch env true false (.failure msg)).memory_percent = 0 := by
  refine ⟨rfl, rfl, rfl, rfl, rfl, rfl, rfl, rfl, rfl, rfl, rfl, rfl, ?_, ?_, rfl, ?_, ?_⟩
  all_goals
    by_cases hc : c.status = "running" <;>
      simp [format_container_info, hc, formatterStats, zeroStats]

/-! ### C4: first_port_url gating -/

/-- C4: whenever the container status is not `running`, both formatter
variants leave `first_port_url` at `null`, regardless of the port map or
any PORT/port labels present. -/
theorem C4_first_port_url (c : RawContainer) (ch : Option HostProfile)
    (env : Option String) (es sis : Bool) (o : StatsOutcome)
    (h : c.status ≠ "running") :
    (format_container_info c ch env es sis o).first_port_url = none ∧
    (format_container_info_lightweight c ch env).first_port_url = none := by
  constructor
  · simp [format_container_info, h]
  · simp [format_container_info_lightweight, h]

/-- C4 witness: an exited container that has both a mapped port and
PORT/port labels still gets no URL. -/
theorem C4_witness :
    (format_container_info exitedPortedContainer none none true false .timeout).first_port_url
        = none ∧
    (format_container_info_lightweight exitedPortedContainer none none).first_port_url
        = none :=
  C4_first_port_url exitedPortedContainer none none true false .timeout (by decide)

/-! ### C5: memory percent -/

/-- C5: the bulk-stats endpoint computes `memory_percent = (usage/limit)*100`
when `memory_limit > 0` and exactly `0.0` when `memory_limit = 0` (guarded
division); in the full formatter the division is unguarded but the
`ZeroDivisionError` raised at `memory_limit = 0` is caught and the entire
stats group zeroed, so `memory_percent` is again `0.0`; both paths are total
(the embedding returns a value for every input), so no division fault
reaches the public interface. -/
theorem C5_memory_percent (m : ContainerMeta) (s : StatsSample) (c : RawContainer)
    (ch : Option HostProfile) (env : Option String) :
    (0 < s.memory_limit →
      (api_stats_entry m (.ok s)).memory_percent =
        (s.memory_usage : ℚ) / (s.memory_limit : ℚ) * 100) ∧
    (s.memory_limit = 0 → (api_stats_entry m (.ok s)).memory_percent = 0) ∧
    (s.memory_limit = 0 → formatterStats (.ok s) = zeroStats) ∧
    (s.memory_limit ≠ 0 →
      (formatterStats (.ok s)).memory_percent =
        (s.memory_usage : ℚ) / (s.memory_limit : ℚ) * 100) ∧
    (c.status = "running" →
      (format_container_info c ch env true false (.ok s)).memory_percent =
        (formatterStats (.ok s)).memory_percent) := by
  refine ⟨?_, ?_, ?_, ?_, ?_⟩
  · intro h
    simp [api_stats_entry, h]
  · intro h
    simp [api_stats_entry, h]
  · intro h
    simp [formatterStats, h]
  · intro h
    simp [formatterStats, h]
  · intro h
    simp [format_container_info, h]

/-- C5 witness: `50 / 100 * 100 = 50` on the concrete payload. -/
theorem C5_witness :
    (api_stats_entry ⟨"c5", "n5"⟩ (.ok posSample)).memory_percent = 50 := by
  have h := (C5_memory_percent ⟨"c5", "n5"⟩ posSample runningContainer none none).1 (by decide)
  rw [h]
  norm_num [posSample]

/-! ### C6: total connection failure -/

/-- C6 counterexample: with every strategy failing, both connectors return
the bare sentinel `none` - a value that carries neither the last error
message nor the address attempted - rather than the typed `ConnectionError`
the claim describes (the messages are only logged). -/
theorem C6_counterexample :
    (app_get_docker_client none true allFailAttempts).1 = none ∧
    (dc_get_docker_client ⟨none, none⟩ "local" twoHosts true (.error "boom")).1 = none :=
  ⟨rfl, rfl⟩

/-- C6 amended: when every strategy fails the connectors return `None`
without raising (the embedding is total), and the error message and address
are only logged, not returned; the separate `test_docker_connection` helper
is the function that returns a typed failure carrying the underlying error
message and the address attempted. -/
theorem C6_amended (p : Bool) (as : Attempts) (och : Option String)
    (hid : String) (hosts : List (String × HostEntry)) (m msg : String)
    (cfg : HostEntry) (hall : allErrors as = true) :
    (app_get_docker_client none p as).1 = none ∧
    (dc_get_docker_client ⟨none, och⟩ hid hosts p (.error m)).1 = none ∧
    (test_docker_connection cfg (.failed msg)).success = false ∧
    (test_docker_connection cfg (.failed msg)).error = some msg ∧
    (test_docker_connection cfg (.failed msg)).host_url = some cfg.host := by
  refine ⟨?_, ?_, rfl, rfl, rfl⟩
  · simp [app_get_docker_client, tryMethods_eq_none_of_allErrors as hall]
  · unfold dc_get_docker_client
    cases hfind : hosts.find? (·.1 == hid) <;> simp [hfind]

/-- C6 witness: the amended statement at the concrete four-failure oracle. -/
theorem C6_witness :
    (app_get_docker_client none true allFailAttempts).1 = none ∧
    (dc_get_docker_client ⟨none, none⟩ "h2" twoHosts true (.error "refused")).1 = none ∧
    (test_docker_connection remoteEntry (.failed "refused")).success = false ∧
    (test_docker_connection remoteEntry (.failed "refused")).error = some "refused" ∧
    (test_docker_connection remoteEntry (.failed "refused")).host_url = some remoteEntry.host :=
  C6_amended true allFailAttempts none "h2" twoHosts "refused" "refused" remoteEntry (by decide)

/-! ### C7: cache revalidation -/

/-- C7 counterexample: `docker_client.get_docker_client` returns the cached
handle for the same host id without any liveness probe - here the probe
oracle says a ping would fail and the only fresh strategy would fail too,
yet the stale cached handle is returned; a connector that revalidated and
dropped the entry as claimed would have returned `none`. -/
theorem C7_counterexample :
    (dc_get_docker_client ⟨some h7, some "local"⟩ "local" twoHosts false
        (.error "daemon gone")).1 = some h7 :=
  rfl

/-- C7 amended: both connectors hand out a handle only when the
version/identity round-trip succeeded during this call or the handle was
cached by a prior successful call; but only the legacy `app.py` variant
revalidates the cached client with a ping, dropping it and rerunning the
strategy sequence on probe failure - `docker_client.py` reuses its cached
handle for the same host id with no probe at all. -/
theorem C7_amended (st : DCState) (hid : String) (hosts : List (String × HostEntry))
    (p : Bool) (att : Except String Handle) (h c : Handle) (co : Option Handle)
    (as : Attempts) :
    ((dc_get_docker_client st hid hosts p att).1 = some h →
      (st.docker_client = some h ∧ st.cached_host_id = some hid) ∨ att = .ok h) ∧
    ((app_get_docker_client (some c) true as).1 = some c) ∧
    ((app_get_docker_client (some c) false as).1 = tryMethods as) ∧
    ((app_get_docker_client co p as).1 = some h →
      (co = some h ∧ p = true) ∨ tryMethods as = some h) := by
  refine ⟨?_, rfl, ?_, ?_⟩
  · intro hres
    cases hdc : st.docker_client with
    | some cc =>
      by_cases hsame : st.cached_host_id = some hid
      · left
        have hch : cc = h := by
          simp [dc_get_docker_client, hdc, hsame] at hres
          exact hres
        exact ⟨congrArg some hch, hsame⟩
      · cases hfind : hosts.find? (·.1 == hid) with
        | none => simp [dc_get_docker_client, hdc, hsame, hfind] at hres
        | some e =>
          cases hatt : att with
          | ok hh =>
            right
            have hch : hh = h := by
              simp [dc_get_docker_client, hdc, hsame, hfind, hatt] at hres
              exact hres
            exact congrArg Except.ok hch
          | error m => simp [dc_get_docker_client, hdc, hsame, hfind, hatt] at hres
    | none =>
      cases hfind : hosts.find? (·.1 == hid) with
      | none => simp [dc_get_docker_client, hdc, hfind] at hres
      | some e =>
        cases hatt : att with
        | ok hh =>
          right
          have hch : hh = h := by
            simp [dc_get_docker_client, hdc, hfind, hatt] at hres
            exact hres
          exact congrArg Except.ok hch
        | error m => simp [dc_get_docker_client, hdc, hfind, hatt] at hres
  · show (app_get_docker_client (some c) false as).1 = tryMethods as
    unfold app_get_docker_client
    cases htm : tryMethods as <;> simp [htm]
  · intro hres
    cases hco : co with
    | some cc =>
      by_cases hp : p = true
      · left
        have hch : cc = h := by
          simp [app_get_docker_client, hco, hp] at hres
          exact hres
        exact ⟨congrArg some hch, hp⟩
      · have hp' : p = false := by
          cases p
          · rfl
          · exact absurd rfl hp
        cases htm : tryMethods as with
        | none => simp [app_get_docker_client, hco, hp', htm] at hres
        | some hh =>
          right
          have hch : hh = h := by
            simp [app_get_docker_client, hco, hp', htm] at hres
            exact hres
          exact congrArg some hch
    | none =>
      cases htm : tryMethods as with
      | none => simp [app_get_docker_client, hco, htm] at hres
      | some hh =>
        right
        have hch : hh = h := by
          simp [app_get_docker_client, hco, htm] at hres
          exact hres
        exact congrArg some hch

/-- C7 witness: the dc-soundness implication at a concrete cached state. -/
theorem C7_witness :
    ((⟨some h7, some "local"⟩ : DCState).docker_client = some h7 ∧
      (⟨some h7, some "local"⟩ : DCState).cached_host_id = some "local") ∨
    (Except.error "x" : Except String Handle) = .ok h7 :=
  (C7_amended ⟨some h7, some "local"⟩ "local" twoHosts true (.error "x") h7 h7 none []).1 rfl

/-! ### C8: host-registry CRUD rejections -/

/-- C8 counterexample: deleting `h2` while it is the currently-active
profile succeeds - the registry is mutated and the current host silently
reset to `local` - so the claim that deleting the active profile is
rejected is false. -/
theorem C8_counterexample :
    (delete_host "h2" cfg8).1.1 = true ∧
    (delete_host "h2" cfg8).2.current_host = "local" ∧
    (delete_host "h2" cfg8).2 ≠ cfg8 := by
  refine ⟨rfl, rfl, ?_⟩
  decide

/-- C8 amended: deleting an unknown id or the `local` profile is rejected
with the registry unchanged, and switching to an unknown id is rejected
("Host not found") with the registry unchanged; but deleting the
currently-active non-local profile is allowed - it removes the profile and
resets the current host to `local`. -/
theorem C8_amended (cfg : HostsConfig) (hid : String) :
    (hostsHas cfg hid = false →
      delete_host hid cfg = ((false, "Host not found"), cfg)) ∧
    (hostsHas cfg "local" = true →
      delete_host "local" cfg = ((false, "Cannot delete the local Docker host"), cfg)) ∧
    (hostsHas cfg hid = false →
      switch_host hid cfg = ((false, "Host not found"), cfg)) ∧
    (hostsHas cfg hid = true → hid ≠ "local" → cfg.current_host = hid →
      (delete_host hid cfg).1.1 = true ∧
      (delete_host hid cfg).2.current_host = "local" ∧
      hostsHas (delete_host hid cfg).2 hid = false) := by
  refine ⟨?_, ?_, ?_, ?_⟩
  · intro h
    simp [delete_host, h]
  · intro h
    simp [delete_host, h]
  · intro h
    simp [switch_host, h]
  · intro h hl hcur
    refine ⟨?_, ?_, ?_⟩
    · simp [delete_host, h, hl]
    · simp [delete_host, h, hl, hcur]
    · simp only [delete_host, h, hl]
      simp [hostsHas, filter_ne_any_self]

/-- C8 witness: the amended statement exercised at the concrete registry
(unknown-id rejection, local-deletion rejection, unknown-switch rejection,
and the active-profile deletion resetting to local). -/
theorem C8_witness :
    delete_host "nope" cfg8 = ((false, "Host not found"), cfg8) ∧
    delete_host "local" cfg8 = ((false, "Cannot delete the local Docker host"), cfg8) ∧
    switch_host "nope" cfg8 = ((false, "Host not found"), cfg8) ∧
    ((delete_host "h2" cfg8).1.1 = true ∧
      (delete_host "h2" cfg8).2.current_host = "local" ∧
      hostsHas (delete_host "h2" cfg8).2 "h2" = false) := by
  have h1 := (C8_amended cfg8 "nope").1 (by decide)
  have h2 := (C8_amended cfg8 "nope").2.1 (by decide)
  have h3 := (C8_amended cfg8 "nope").2.2.1 (by decide)
  have h4 := (C8_amended cfg8 "h2").2.2.2 (by decide) (by decide) (by decide)
  exact ⟨h1, h2, h3, h4⟩

/-! ### C9: icon resolution -/

/-- C9 counterexample: in lightweight mode an nginx-imaged container with no
labels resolves to the generic runtime icon, not the nginx keyword icon -
the lightweight formatter has no image-name keyword table (the full
formatter does resolve it to the nginx icon), so the claim that both modes
fall back to the keyword table is false. -/
theorem C9_counterexample :
    (format_container_info_lightweight nginxNoLabel none none).icon_url = defaultIcon ∧
    defaultIcon ≠ "https://cdn.jsdelivr.net/gh/selfhst/icons/png/nginx.png" ∧
    (format_container_info nginxNoLabel none none false false .timeout).icon_url =
      "https://cdn.jsdelivr.net/gh/selfhst/icons/png/nginx.png" := by
  refine ⟨rfl, by decide, by decide⟩

/-- C9 amended: both formatters take the first non-empty value among their
fixed priority-ordered icon label keys, so a matching label always beats a
recognizable image keyword; when no label matches, the full formatter falls
back to the built-in image-name keyword table and then the generic icon,
while the lightweight formatter (whose key list also omits the unraid and
portainer keys) falls back directly to the generic icon. -/
theorem C9_amended (c : RawContainer) (ch : Option HostProfile) (env : Option String)
    (es sis : Bool) (o : StatsOutcome) (v : String) (pre post : List String)
    (k : String) :
    (icon_labels_full = pre ++ k :: post →
      (∀ k2 ∈ pre, truthyLabel (lookupLabel (c.labels.getD []) k2) = none) →
      truthyLabel (lookupLabel (c.labels.getD []) k) = some v →
      (format_container_info c ch env es sis o).icon_url = v) ∧
    (firstNonEmptyLabel icon_labels_full (c.labels.getD []) = none →
      (format_container_info c ch env es sis o).icon_url = keywordIcon (imageDisplay c)) ∧
    (icon_labels_lightweight = pre ++ k :: post →
      (∀ k2 ∈ pre, truthyLabel (lookupLabel (c.labels.getD []) k2) = none) →
      truthyLabel (lookupLabel (c.labels.getD []) k) = some v →
      (format_container_info_lightweight c ch env).icon_url = v) ∧
    (firstNonEmptyLabel icon_labels_lightweight (c.labels.getD []) = none →
      (format_container_info_lightweight c ch env).icon_url = defaultIcon) := by
  refine ⟨?_, ?_, ?_, ?_⟩
  · intro h1 h2 h3
    have hf : firstNonEmptyLabel icon_labels_full (c.labels.getD []) = some v := by
      rw [h1]
      exact firstNonEmptyLabel_append _ pre post k v h2 h3
    simp [format_container_info, hf]
  · intro hf
    simp [format_container_info, hf]
  · intro h1 h2 h3
    have hf : firstNonEmptyLabel icon_labels_lightweight (c.labels.getD []) = some v := by
      rw [h1]
      exact firstNonEmptyLabel_append _ pre post k v h2 h3
    simp [format_container_info_lightweight, hf]
  · intro hf
    simp [format_container_info_lightweight, hf]

/-- C9 witness: an nginx-imaged container whose `icon.url` label is empty
and whose `app.icon` label is set resolves to the label value, not the nginx
keyword icon. -/
theorem C9_witness :
    (format_container_info labeledNginx none none false false .timeout).icon_url
      = "http://x/i.png" :=
  (C9_amended labeledNginx none none false false .timeout "http://x/i.png"
      ["icon", "icon.url"]
      ["org.opencontainers.image.icon", "net.unraid.docker.icon", "io.portainer.icon"]
      "app.icon").1
    (by decide) (by decide) (by decide)

/-! ### C10: totality of load_docker_hosts -/

/-- C10 counterexample: the file state "valid JSON array
`["hosts", "current_host"]`" passes both membership probes, so
`load_docker_hosts` returns the array itself - a value that is not a
mapping and has no `hosts` key - and a caller indexing the result by
`'hosts'` fails; the claimed totality over every file state is false. -/
theorem C10_counterexample :
    load_docker_hosts (.parsed (.arr [.str "hosts", .str "current_host"]))
      = .arr [.str "hosts", .str "current_host"] ∧
    jLookup (load_docker_hosts (.parsed (.arr [.str "hosts", .str "current_host"])))
      "hosts" = none :=
  ⟨rfl, rfl⟩

/-- C10 amended: for a missing file, an unreadable file, undecodable JSON,
or a decoded JSON object (with any keys missing), `load_docker_hosts`
returns an object containing both a `hosts` and a `current_host` key,
falling back to the built-in default whose `hosts` map holds the `local`
profile; but a decoded non-object JSON value that happens to pass the
membership probes is returned unchanged, and callers indexing it by
`'hosts'` can then fail. -/
theorem C10_amended (fs : List (String × J)) :
    load_docker_hosts .missing = default_config_j ∧
    load_docker_hosts .unreadable = default_config_j ∧
    load_docker_hosts .malformed = default_config_j ∧
    (jLookup (load_docker_hosts (.parsed (.obj fs))) "hosts").isSome = true ∧
    (jLookup (load_docker_hosts (.parsed (.obj fs))) "current_host").isSome = true ∧
    jLookup default_config_j "hosts" = some default_hosts_j ∧
    jLookup default_config_j "current_host" = some (.str "local") := by
  refine ⟨rfl, rfl, rfl, ?_, ?_, rfl, rfl⟩
  all_goals
    by_cases h1 : fs.any (·.1 == "hosts") = true
  case pos =>
    by_cases h2 : fs.any (·.1 == "current_host") = true
    · simp [load_docker_hosts, pyIn, h1, h2, jLookup]
      exact exists_mem_of_any fs "hosts" h1
    · simp [load_docker_hosts, pyIn, pySetItem, h1, h2, jLookup]
      exact exists_mem_of_any _ "hosts"
        (setKey_preserves_any fs "current_host" "hosts" (.str "local") h1)
  case neg =>
    by_cases h2 : (setKey fs "hosts" default_hosts_j).any (·.1 == "current_host") = true
    · simp [load_docker_hosts, pyIn, pySetItem, h1, h2, jLookup]
      exact exists_mem_of_any _ "hosts" (setKey_any_self fs "hosts" default_hosts_j)
    · simp [load_docker_hosts, pyIn, pySetItem, h1, h2, jLookup]
      exact exists_mem_of_any _ "hosts"
        (setKey_preserves_any _ "current_host" "hosts" (.str "local")
          (setKey_any_self fs "hosts" default_hosts_j))
  case pos =>
    by_cases h2 : fs.any (·.1 == "current_host") = true
    · simp [load_docker_hosts, pyIn, h1, h2, jLookup]
      exact exists_mem_of_any fs "current_host" h2
    · simp [load_docker_hosts, pyIn, pySetItem, h1, h2, jLookup]
      exact exists_mem_of_any _ "current_host"
        (setKey_any_self fs "current_host" (.str "local"))
  case neg =>
    by_cases h2 : (setKey fs "hosts" default_hosts_j).any (·.1 == "current_host") = true
    · simp [load_docker_hosts, pyIn, pySetItem, h1, h2, jLookup]
      exact exists_mem_of_any _ "current_host" h2
    · simp [load_docker_hosts, pyIn, pySetItem, h1, h2, jLookup]
      exact exists_mem_of_any _ "current_host"
        (setKey_any_self _ "current_host" (.str "local"))

end DockerPage
